import Mathlib

/-!
Verification of the interview-server repository: a shallow embedding of
the word-overlap merger and chunked transcription pipeline from
src/speech_to_text.py, and of the websocket connection handler and its
event dispatch from src/server.py, together with theorems settling the
specification claims about them.

Python strings are modelled as Lean String values; the Python string
primitives used by the source (split on whitespace, join, slicing by
character index, startswith, strip) are defined below over the character
list of the string, which matches Python code-point indexing. Every
external collaborator (the Google speech recognizer, CV and JD
extractors, the code evaluator, the analyzers) is supplied as an oracle
returning Except, whose error case models a raised exception.
-/

namespace Mylamp

/-! ## Definitions: Python string primitives and the word-overlap merger
(src/speech_to_text.py) -/

/-- Auxiliary for pySplit: walks the character list, accumulating the
current word in reverse; whitespace flushes the accumulated word (if any),
which models how Python str.split() discards empty pieces. -/
def pySplitAux : List Char → List Char → List String
  | [], [] => []
  | [], cur => [String.mk cur.reverse]
  | c :: cs, cur =>
      if c.isWhitespace then
        if cur.isEmpty then pySplitAux cs []
        else String.mk cur.reverse :: pySplitAux cs []
      else pySplitAux cs (c :: cur)

/-- Python str.split() with no argument: split on runs of whitespace,
no empty pieces. -/
def pySplit (s : String) : List String :=
  pySplitAux s.data []

/-- Python " ".join(words). -/
def joinWords : List String → String
  | [] => ""
  | [w] => w
  | w :: ws => w ++ " " ++ joinWords ws

/-- Python slicing s[i:] by character index. -/
def sliceFrom (s : String) (i : Nat) : String :=
  String.mk (s.data.drop i)

/-- Python slicing s[:i] by character index. -/
def sliceTo (s : String) (i : Nat) : String :=
  String.mk (s.data.take i)

/-- Python len(s) in characters. -/
def pyLen (s : String) : Nat :=
  s.data.length

/-- Python s.startswith(pre). -/
def pyStartsWith (s pre : String) : Bool :=
  pre.data.isPrefixOf s.data

/-- Python s.strip(): remove leading and trailing whitespace. -/
def pyStrip (s : String) : String :=
  String.mk (((s.data.dropWhile Char.isWhitespace).reverse.dropWhile Char.isWhitespace).reverse)

/-- Python previous_words[-1], guarded non-empty at every use site in the
source, so the default is never observed. -/
def pyLast (l : List String) : String :=
  l.getLastD ""

/-- Python current_words[0], guarded non-empty at every use site in the
source, so the default is never observed. -/
def pyFirst (l : List String) : String :=
  l.headD ""

/-- The scan `for i in range(len(last_word_prev)): if
first_word_curr.startswith(last_word_prev[i:]): overlap_index = i; break`
from merge_with_overlap in src/speech_to_text.py: the first index whose
suffix of the last word is a prefix of the first word, None-modelled as
Option. -/
def overlap_index (last_word_prev first_word_curr : String) : Option Nat :=
  (List.range (pyLen last_word_prev)).find?
    (fun i => pyStartsWith first_word_curr (sliceFrom last_word_prev i))

/-- merge_with_overlap from src/speech_to_text.py. -/
def merge_with_overlap (previous current : String) : String :=
  let previous_words := pySplit previous
  let current_words := pySplit current
  if previous_words.isEmpty || current_words.isEmpty then
    previous ++ " " ++ current
  else
    let last_word_prev := pyLast previous_words
    let first_word_curr := pyFirst current_words
    if last_word_prev = first_word_curr then
      previous ++ " " ++ joinWords current_words.tail
    else
      match overlap_index last_word_prev first_word_curr with
      | some i =>
          joinWords (previous_words.dropLast
            ++ [sliceTo last_word_prev i ++ first_word_curr]
            ++ current_words.tail)
      | none => previous ++ " " ++ current

/-! ## Definitions: the chunked transcription pipeline
(transcribe_audio_with_overlap, src/speech_to_text.py) -/

/-- `int(0.5 * 16000 * 2)` from src/speech_to_text.py: 0.5 second of
16 kHz 16-bit mono audio. -/
def overlap_duration : Nat := 16000

/-- `int(5 * 16000 * 2)` from src/speech_to_text.py: 5 seconds of
16 kHz 16-bit mono audio. -/
def chunk_duration : Nat := 5 * 16000 * 2

/-- The byte windows submitted by the while loop of
transcribe_audio_with_overlap, as pairs (start, end): each iteration with
`start < len` submits `[start, min (start + chunk_duration +
overlap_duration) len)` and advances `start` by chunk_duration. -/
def windowTrace (len start : Nat) : List (Nat × Nat) :=
  if start < len then
    (start, min (start + chunk_duration + overlap_duration) len)
      :: windowTrace len (start + chunk_duration)
  else []
termination_by len - start
decreasing_by simp only [chunk_duration]; omega

/-- The while loop of transcribe_audio_with_overlap from
src/speech_to_text.py. The external Google recognizer is abstracted as an
oracle `recognize` from the window bounds within the fixed audio buffer to
the transcript of that window (or a failure); the audio buffer itself is
represented by its byte length `len`. Any exception becomes the error
branch, matching the re-raise of RuntimeError in the source. -/
def transcribeLoop (recognize : Nat → Nat → Except String String) (len : Nat) :
    Nat → String → String → Except String String
  | start, previous_transcription, transcription =>
    if start < len then
      match recognize start (min (start + chunk_duration + overlap_duration) len) with
      | .error e => .error e
      | .ok chunk_transcription =>
          transcribeLoop recognize len (start + chunk_duration) chunk_transcription
            (if previous_transcription ≠ "" then
              transcription ++ merge_with_overlap previous_transcription chunk_transcription
             else transcription ++ chunk_transcription)
    else .ok (pyStrip transcription)
termination_by start => len - start
decreasing_by simp only [chunk_duration]; omega

/-- transcribe_audio_with_overlap from src/speech_to_text.py: cursor at 0,
previous_transcription and transcription empty; returns the stripped
accumulated transcription, or the propagated error. -/
def transcribe_audio_with_overlap (recognize : Nat → Nat → Except String String)
    (len : Nat) : Except String String :=
  transcribeLoop recognize len 0 "" ""

/-- The accumulation step of the while loop, as a pure fold over the list
of raw fragments in window order: each fragment is appended to the
accumulated text through merge_with_overlap against the raw fragment of
the immediately preceding window when that fragment is non-empty, and
directly otherwise. -/
def accumFold : String → String → List String → String
  | _, acc, [] => acc
  | prev, acc, frag :: rest =>
      accumFold frag
        (if prev ≠ "" then acc ++ merge_with_overlap prev frag else acc ++ frag) rest

/-- Concatenation of a list of strings with no separator. -/
def concatAll : List String → String
  | [] => ""
  | s :: rest => s ++ concatAll rest

/-- The pieces appended after the first fragment: for each window the
merge against the preceding raw fragment when that fragment is non-empty,
the fragment itself otherwise. -/
def condPieces : String → List String → List String
  | _, [] => []
  | prev, f :: fs =>
      (if prev ≠ "" then merge_with_overlap prev f else f) :: condPieces f fs

/-! ## Definitions: connection handler and session state (src/server.py)

The websocket endpoint and its event handlers are embedded as pure
functions over an explicit session state, with the outbound sends, task
launches and signal operations recorded as an effect list, and every
external collaborator supplied as an oracle that either returns a value
or raises (Except). Python dictionary values observed only for
truthiness (the evaluator outcome fields) are modelled by their
truthiness bit. -/

/-- Modelled from the spec: the InterviewBot class lives in
app/interviewer.py, which is not among the provided sources. Per the
spec, the interview task handle holds the pending-answer slot and the
rendezvous signals, and startInterview constructs it with fresh signals,
all unset. Only the attributes read or written by src/server.py are
modelled. -/
structure InterviewBot where
  cv_text : String
  job_description : String
  current_answer : Option String := none
  answer_event : Bool := false
  coding_event : Bool := false
  stop_interview : Bool := false
deriving DecidableEq, Repr

/-- Modelled from the spec: constructing InterviewBot(cv_text,
job_description, results) yields a handle with fresh signals, all
unset, and an empty pending-answer slot. -/
def InterviewBot.new (cv jd : String) : InterviewBot :=
  { cv_text := cv, job_description := jd }

/-- InterviewState from src/server.py. The results mapping is keyed by
the five fixed phase names; its open values are filled in only by the
excluded analysis collaborator, so each value is kept as an opaque list
of key-value pairs. -/
structure InterviewState where
  cv_text : String := ""
  job_description : String := ""
  interview_bot : Option InterviewBot := none
  results : List (String × List (String × String)) :=
    [("INTRODUCTION", []), ("PROJECT", []), ("CODING", []), ("TECHNICAL", []), ("OUTRO", [])]
  stop_interview : Bool := false
deriving DecidableEq, Repr

/-- The fresh InterviewState built when a websocket connection is
accepted. -/
def InterviewState.init : InterviewState := {}

/-- EventData from src/server.py: the validated shape of an inbound
message; absent optional fields are None. -/
structure EventData where
  type : String
  code : Option String := none
  ques : Option String := none
  audio_data : Option String := none
deriving DecidableEq, Repr

/-- One inbound websocket message: either it fails EventData validation
(ValidationError) or it carries a validated event. -/
inductive Inbound where
  | malformed
  | event (e : EventData)
deriving DecidableEq, Repr

/-- Observable actions of the connection handler: outbound sends
(type discriminator and the payload the claims inspect), interview task
launches, error logging, and operations on the stop signal of the
running interview handle. -/
inductive Effect where
  | send (ty : String) (payload : String)
  | createTask
  | log (msg : String)
  | stopSet
  | stopCleared
deriving DecidableEq, Repr

/-- How the websocket endpoint loop of src/server.py ends: the client
disconnected (WebSocketDisconnect), or an exception escaped the
per-message handling and was caught by the outer except clause. -/
inductive LoopExit where
  | disconnected
  | crashed (msg : String)
deriving DecidableEq, Repr

/-- An exception escaping an event handler: either an ordinary exception
or a WebSocketDisconnect raised by a receive inside the handler. -/
inductive HandlerErr where
  | exc (msg : String)
  | disconnect
deriving DecidableEq, Repr

/-- A Python value of the evaluator outcome dictionary, observed by
src/server.py only through its truthiness, so modelled by that bit. -/
abbrev PyDict := List (String × Bool)

/-- Python dict.get(k): the value for the first matching key, None when
absent. -/
def dictGet (d : PyDict) (k : String) : Option Bool :=
  (d.find? (fun p => p.1 == k)).map (fun p => p.2)

/-- Python truthiness of the evaluator outcome: None and the empty dict
are falsy. -/
def dictTruthy : Option PyDict → Bool
  | none => false
  | some d => !d.isEmpty

/-- Python truthiness of response.get(k): falsy when the response is
None, the key is absent, or the value is falsy. -/
def getTruthy (response : Option PyDict) (k : String) : Bool :=
  match response with
  | none => false
  | some d => (dictGet d k).getD false

/-- The external collaborators called by src/server.py, as oracles.
Every call either returns (ok) or raises (error). -/
structure Oracles where
  get_cv : Inbound → Except String String
  get_job_description : Inbound → Except String String
  evaluate_code : Option String → Option String → Except String (Option PyDict)
  analyze_results : List (String × List (String × String)) → Except String String
  summary_results : List (String × List (String × String)) → Except String String
  transcribe : String → Except String String
  pick_question : String

/-- handle_start_interview from src/server.py: when no interview bot
exists, construct one, launch the interview task and announce the start;
otherwise do nothing. -/
def handle_start_interview (s : InterviewState) : InterviewState × List Effect :=
  match s.interview_bot with
  | none =>
      ({ s with interview_bot := some (InterviewBot.new s.cv_text s.job_description) },
       [Effect.createTask, Effect.send "interview_started" "Interview started"])
  | some _ => (s, [])

/-- handle_answer from src/server.py: when a bot exists, store the
answer text (passed in the code field) and set the answer signal;
otherwise do nothing. -/
def handle_answer (code : Option String) (s : InterviewState) :
    InterviewState × List Effect :=
  match s.interview_bot with
  | some bot =>
      let bot2 : InterviewBot := { bot with current_answer := code, answer_event := true }
      ({ s with interview_bot := some bot2 }, [])
  | none => (s, [])

/-- handle_coding from src/server.py: when a bot exists, call the
external evaluator, send its result, and set the coding signal when
`response and response.get("RESULT")` is truthy; an evaluator exception
is caught, logged and reported as a coding_error message. The structured
result payload of the code_evaluation send is not inspected by any claim
and is abstracted to the empty string. -/
def handle_coding (evaluate : Option String → Option String → Except String (Option PyDict))
    (ques code : Option String) (s : InterviewState) : InterviewState × List Effect :=
  match s.interview_bot with
  | none => (s, [])
  | some bot =>
      match evaluate ques code with
      | .error m => (s, [Effect.log m, Effect.send "coding_error" m])
      | .ok response =>
          if dictTruthy response && getTruthy response "RESULT" then
            ({ s with interview_bot := some ({ bot with coding_event := true }) },
             [Effect.send "code_evaluation" ""])
          else (s, [Effect.send "code_evaluation" ""])

/-- handle_end_interview from src/server.py: when a bot exists, set its
stop signal, wait briefly, clear it and announce the end; nothing is sent
otherwise. The set followed by the clear leaves the stored flag unset. -/
def handle_end_interview (s : InterviewState) : InterviewState × List Effect :=
  match s.interview_bot with
  | some bot =>
      ({ s with interview_bot := some ({ bot with stop_interview := false }) },
       [Effect.stopSet, Effect.stopCleared, Effect.send "interview_end" "Interview ended"])
  | none => (s, [])

/-- handle_audio_transcription from src/server.py: an absent or empty
audio_data field is answered with an error message; otherwise the
transcription pipeline runs, its result is sent as transcription_complete,
and when the transcript is truthy (non-empty) and a bot exists the
transcript is stored as the current answer and the answer signal is set.
A pipeline exception is caught, logged and reported as
transcription_error. -/
def handle_audio_transcription (tr : String → Except String String)
    (audio_data : Option String) (s : InterviewState) : InterviewState × List Effect :=
  match audio_data with
  | none => (s, [Effect.send "error" "No audio data provided"])
  | some a =>
      if a = "" then (s, [Effect.send "error" "No audio data provided"])
      else
        match tr a with
        | .error m => (s, [Effect.log m, Effect.send "transcription_error" m])
        | .ok t =>
            if t ≠ "" then
              match s.interview_bot with
              | some bot =>
                  let bot2 : InterviewBot :=
                    { bot with current_answer := some t, answer_event := true }
                  ({ s with interview_bot := some bot2 },
                   [Effect.send "transcription_complete" t])
              | none => (s, [Effect.send "transcription_complete" t])
            else (s, [Effect.send "transcription_complete" t])

/-- handle_event from src/server.py: dispatch on the event type. The
upload_cv and analyze_jd handlers receive one further message from the
websocket, passed here as `next` together with a flag in the result
saying whether it was consumed; receiving on a closed stream raises
WebSocketDisconnect. Exceptions raised by external collaborators that the
individual handler does not catch escape as HandlerErr.exc. An event type
matching no branch does nothing. -/
def handle_event (or : Oracles) (event : EventData) (next : Option Inbound)
    (s : InterviewState) : Except HandlerErr (InterviewState × List Effect × Bool) :=
  if event.type = "upload_cv" then
    match next with
    | none => .error HandlerErr.disconnect
    | some j =>
        match or.get_cv j with
        | .error m => .error (HandlerErr.exc m)
        | .ok cv =>
            .ok ({ s with cv_text := cv }, [Effect.send "cv_uploaded" cv], true)
  else if event.type = "analyze_jd" then
    match next with
    | none => .error HandlerErr.disconnect
    | some j =>
        match or.get_job_description j with
        | .error m => .error (HandlerErr.exc m)
        | .ok jd =>
            .ok ({ s with job_description := jd }, [Effect.send "jd_analyzed" jd], true)
  else if event.type = "start_interview" then
    let r := handle_start_interview s
    .ok (r.1, r.2, false)
  else if event.type = "answer" then
    let r := handle_answer event.code s
    .ok (r.1, r.2, false)
  else if event.type = "coding" then
    let r := handle_coding or.evaluate_code event.ques event.code s
    .ok (r.1, r.2, false)
  else if event.type = "end_interview" then
    let r := handle_end_interview s
    .ok (r.1, r.2, false)
  else if event.type = "get_analysis" then
    match or.analyze_results s.results with
    | .error m => .error (HandlerErr.exc m)
    | .ok res => .ok (s, [Effect.send "analysis" res], false)
  else if event.type = "get_summary_analysis" then
    match or.summary_results s.results with
    | .error m => .error (HandlerErr.exc m)
    | .ok res => .ok (s, [Effect.send "summary_analysis" res], false)
  else if event.type = "test_coding_question" then
    .ok (s, [Effect.send "test_coding_question" or.pick_question], false)
  else if event.type = "audio" then
    let r := handle_audio_transcription or.transcribe event.audio_data s
    .ok (r.1, r.2, false)
  else
    .ok (s, [], false)

/-- The finally clause of websocket_endpoint: when a bot still exists its
stop signal is set and the handle is dropped. -/
def cleanup (s : InterviewState) : InterviewState × List Effect :=
  match s.interview_bot with
  | some _ => ({ s with interview_bot := none }, [Effect.stopSet])
  | none => (s, [])

/-- The receive loop of websocket_endpoint from src/server.py over the
inbound message stream: a malformed message raises ValidationError, which
is caught inside the loop, logged and answered with an error message; a
validated event is dispatched through handle_event; an exception escaping
handle_event is caught only by the outer except clause, which logs it and
ends the loop; exhausting the stream models WebSocketDisconnect. In every
exit path the finally clause (cleanup) runs. -/
def runLoop (or : Oracles) : List Inbound → InterviewState →
    InterviewState × List Effect × LoopExit
  | [], s =>
      let r := cleanup s
      (r.1, r.2, LoopExit.disconnected)
  | Inbound.malformed :: rest, s =>
      let r := runLoop or rest s
      (r.1, Effect.log "validation error" :: Effect.send "error" "validation error" :: r.2.1,
       r.2.2)
  | Inbound.event e :: rest, s =>
      match handle_event or e rest.head? s with
      | .error HandlerErr.disconnect =>
          let r := cleanup s
          (r.1, r.2, LoopExit.disconnected)
      | .error (HandlerErr.exc m) =>
          let r := cleanup s
          (r.1, Effect.log m :: r.2, LoopExit.crashed m)
      | .ok (s1, effs, consumed) =>
          if consumed then
            match rest with
            | _ :: rest2 =>
                let r := runLoop or rest2 s1
                (r.1, effs ++ r.2.1, r.2.2)
            | [] =>
                let r := cleanup s1
                (r.1, effs ++ r.2, LoopExit.disconnected)
          else
            let r := runLoop or rest s1
            (r.1, effs ++ r.2.1, r.2.2)

/-! ## Definitions: claim-side formulas and observations -/

/-- The accumulation formula exactly as claim C4 states it: the first
fragment followed by merge(previous fragment, fragment) for every
subsequent window, unconditionally. -/
def pairMerges : String → List String → List String
  | _, [] => []
  | prev, g :: gs => merge_with_overlap prev g :: pairMerges g gs

/-- The transcript claim C4 predicts: the whitespace-trimmed value of the
first fragment followed by the pairwise merges. -/
def claimTranscript : List String → String
  | [] => ""
  | f :: fs => pyStrip (f ++ concatAll (pairMerges f fs))

/-- The transcript with the correction the source forces: a fragment
whose predecessor fragment is empty is appended directly, without the
merge. -/
def amendedTranscript : List String → String
  | [] => ""
  | f :: fs => pyStrip (f ++ concatAll (condPieces f fs))

/-- Whether the answer-ready signal of the session is set. -/
def answerEventSet (s : InterviewState) : Bool :=
  match s.interview_bot with
  | some bot => bot.answer_event
  | none => false

/-- Whether the code-ready signal of the session is set. -/
def codingEventSet (s : InterviewState) : Bool :=
  match s.interview_bot with
  | some bot => bot.coding_event
  | none => false

/-- The predicate claim C8 speaks about: the evaluator outcome has a
verdict (RESULT) field, regardless of the truthiness of its value. -/
def hasVerdictField (resp : Option PyDict) : Bool :=
  match resp with
  | none => false
  | some d => (dictGet d "RESULT").isSome

/-- A concrete oracle assignment on which every external collaborator
raises, used to exercise the error paths of the handlers. -/
def failingOracles : Oracles :=
  { get_cv := fun _ => Except.error "boom",
    get_job_description := fun _ => Except.error "boom",
    evaluate_code := fun _ _ => Except.error "boom",
    analyze_results := fun _ => Except.error "boom",
    summary_results := fun _ => Except.error "boom",
    transcribe := fun _ => Except.error "boom",
    pick_question := "Q" }

/-! ## Lemmas -/

lemma windowTrace_stop {len start : Nat} (h : ¬ start < len) :
    windowTrace len start = [] := by
  rw [windowTrace]
  simp [h]

lemma windowTrace_step {len start : Nat} (h : start < len) :
    windowTrace len start =
      (start, min (start + chunk_duration + overlap_duration) len)
        :: windowTrace len (start + chunk_duration) := by
  rw [windowTrace]
  simp [h]

lemma transcribeLoop_stop (recognize : Nat → Nat → Except String String)
    {len start : Nat} (p a : String) (h : ¬ start < len) :
    transcribeLoop recognize len start p a = .ok (pyStrip a) := by
  rw [transcribeLoop]
  simp [h]

lemma transcribeLoop_step_err (recognize : Nat → Nat → Except String String)
    {len start : Nat} (p a : String) (h : start < len) {e : String}
    (hfrag : recognize start (min (start + chunk_duration + overlap_duration) len)
      = .error e) :
    transcribeLoop recognize len start p a = .error e := by
  rw [transcribeLoop]
  simp [h, hfrag]

lemma transcribeLoop_step_ok (recognize : Nat → Nat → Except String String)
    {len start : Nat} (p a : String) (h : start < len) {frag : String}
    (hfrag : recognize start (min (start + chunk_duration + overlap_duration) len)
      = .ok frag) :
    transcribeLoop recognize len start p a =
      transcribeLoop recognize len (start + chunk_duration) frag
        (if p ≠ "" then a ++ merge_with_overlap p frag else a ++ frag) := by
  rw [transcribeLoop]
  simp [h, hfrag]

lemma accumFold_nil (prev acc : String) : accumFold prev acc [] = acc := rfl

lemma accumFold_cons (prev acc frag : String) (rest : List String) :
    accumFold prev acc (frag :: rest) =
      accumFold frag
        (if prev ≠ "" then acc ++ merge_with_overlap prev frag else acc ++ frag) rest := rfl

lemma accumFold_eq_concat (fs : List String) :
    ∀ prev acc, accumFold prev acc fs = acc ++ concatAll (condPieces prev fs) := by
  induction fs with
  | nil => intro prev acc; simp [accumFold, condPieces, concatAll]
  | cons f rest ih =>
      intro prev acc
      simp only [accumFold_cons, condPieces, concatAll]
      rw [ih]
      by_cases hp : prev ≠ "" <;> simp [hp, String.append_assoc]

/-- When the recognizer succeeds on every window, producing the fragment
`f start` for the window beginning at `start`, the loop result is the
stripped accumFold of the fragments of the remaining windows. Stated with
an explicit fuel bound on the remaining length to drive the induction. -/
lemma transcribeLoop_frags_aux (recognize : Nat → Nat → Except String String)
    (f : Nat → String) (hr : ∀ s e, recognize s e = .ok (f s)) :
    ∀ (n len start : Nat) (p a : String), len ≤ start + n * chunk_duration →
      transcribeLoop recognize len start p a =
        .ok (pyStrip (accumFold p a ((windowTrace len start).map (fun w => f w.1)))) := by
  intro n
  induction n with
  | zero =>
      intro len start p a hle
      have h : ¬ start < len := by omega
      rw [transcribeLoop_stop recognize p a h, windowTrace_stop h]
      simp [accumFold_nil]
  | succ n ih =>
      intro len start p a hle
      by_cases h : start < len
      · rw [transcribeLoop_step_ok recognize p a h (hr start _), windowTrace_step h]
        rw [List.map_cons, accumFold_cons]
        apply ih
        have hc : start + (n + 1) * chunk_duration
            = start + chunk_duration + n * chunk_duration := by ring
        rw [hc] at hle
        exact hle
      · rw [transcribeLoop_stop recognize p a h, windowTrace_stop h]
        simp [accumFold_nil]

lemma len_le_mul_chunk (len : Nat) : len ≤ 0 + len * chunk_duration := by
  have h : len * 1 ≤ len * chunk_duration :=
    Nat.mul_le_mul_left len (by norm_num [chunk_duration])
  omega

/-- Pipeline result as a function of the raw fragments, one per window. -/
lemma transcribe_frags (recognize : Nat → Nat → Except String String)
    (f : Nat → String) (hr : ∀ s e, recognize s e = .ok (f s)) (len : Nat) :
    transcribe_audio_with_overlap recognize len =
      .ok (pyStrip (accumFold "" "" ((windowTrace len 0).map (fun w => f w.1)))) :=
  transcribeLoop_frags_aux recognize f hr len len 0 "" "" (len_le_mul_chunk len)

/-- When the recognizer succeeds on every window before some window of
the trace and fails on that window, the loop reaches it and propagates
its error. Stated with an explicit fuel bound on the remaining length to
drive the induction. -/
lemma transcribeLoop_reject_aux (recognize : Nat → Nat → Except String String) :
    ∀ (n len start : Nat) (p a msg : String)
      (ws1 : List (Nat × Nat)) (s e : Nat) (ws2 : List (Nat × Nat)),
      len ≤ start + n * chunk_duration →
      windowTrace len start = ws1 ++ (s, e) :: ws2 →
      (∀ w ∈ ws1, ∃ t, recognize w.1 w.2 = Except.ok t) →
      recognize s e = Except.error msg →
      transcribeLoop recognize len start p a = Except.error msg := by
  intro n
  induction n with
  | zero =>
      intro len start p a msg ws1 s e ws2 hle htrace hok herr
      have h : ¬ start < len := by omega
      rw [windowTrace_stop h] at htrace
      simp at htrace
  | succ n ih =>
      intro len start p a msg ws1 s e ws2 hle htrace hok herr
      by_cases h : start < len
      · rw [windowTrace_step h] at htrace
        cases ws1 with
        | nil =>
            simp only [List.nil_append] at htrace
            injection htrace with h1 h2
            rw [Prod.mk.injEq] at h1
            obtain ⟨rfl, rfl⟩ := h1
            exact transcribeLoop_step_err recognize p a h herr
        | cons w0 ws1t =>
            simp only [List.cons_append] at htrace
            injection htrace with h1 h2
            obtain ⟨t, hok0⟩ := hok w0 (List.mem_cons_self _ _)
            rw [← h1] at hok0
            rw [transcribeLoop_step_ok recognize p a h hok0]
            apply ih len (start + chunk_duration) t _ msg ws1t s e ws2 ?_ h2 ?_ herr
            · have hc : start + (n + 1) * chunk_duration
                  = start + chunk_duration + n * chunk_duration := by ring
              rw [hc] at hle
              exact hle
            · intro w hw
              exact hok w (List.mem_cons_of_mem _ hw)
      · rw [windowTrace_stop h] at htrace
        simp at htrace

/-- The pipeline propagates the error of the first rejected window: when
the recognizer succeeds on every window of the trace before (s, e) and
fails on (s, e), the whole pipeline fails with that error. -/
lemma transcribe_reject (recognize : Nat → Nat → Except String String)
    (len : Nat) (msg : String) (ws1 : List (Nat × Nat)) (s e : Nat)
    (ws2 : List (Nat × Nat))
    (htrace : windowTrace len 0 = ws1 ++ (s, e) :: ws2)
    (hok : ∀ w ∈ ws1, ∃ t, recognize w.1 w.2 = Except.ok t)
    (herr : recognize s e = Except.error msg) :
    transcribe_audio_with_overlap recognize len = Except.error msg :=
  transcribeLoop_reject_aux recognize len len 0 "" "" msg ws1 s e ws2
    (len_le_mul_chunk len) htrace hok herr

/-- The loop only consults the recognizer on the windows of windowTrace:
two recognizers that agree there produce the same result. -/
lemma transcribeLoop_congr_aux (r1 r2 : Nat → Nat → Except String String) :
    ∀ (n len start : Nat) (p a : String), len ≤ start + n * chunk_duration →
      (∀ w ∈ windowTrace len start, r1 w.1 w.2 = r2 w.1 w.2) →
      transcribeLoop r1 len start p a = transcribeLoop r2 len start p a := by
  intro n
  induction n with
  | zero =>
      intro len start p a hle _
      have h : ¬ start < len := by omega
      rw [transcribeLoop_stop r1 p a h, transcribeLoop_stop r2 p a h]
  | succ n ih =>
      intro len start p a hle hagree
      by_cases h : start < len
      · have hhead :
            r1 start (min (start + chunk_duration + overlap_duration) len)
              = r2 start (min (start + chunk_duration + overlap_duration) len) := by
          have hm : (start, min (start + chunk_duration + overlap_duration) len)
              ∈ windowTrace len start := by
            rw [windowTrace_step h]
            exact List.mem_cons_self _ _
          exact hagree _ hm
        have hle2 : len ≤ start + chunk_duration + n * chunk_duration := by
          have hc : start + (n + 1) * chunk_duration
              = start + chunk_duration + n * chunk_duration := by ring
          rw [hc] at hle
          exact hle
        have htail : ∀ w ∈ windowTrace len (start + chunk_duration),
            r1 w.1 w.2 = r2 w.1 w.2 := by
          intro w hw
          apply hagree
          rw [windowTrace_step h]
          exact List.mem_cons_of_mem _ hw
        cases hv : r2 start (min (start + chunk_duration + overlap_duration) len) with
        | error e =>
            rw [transcribeLoop_step_err r1 p a h (hhead.trans hv),
              transcribeLoop_step_err r2 p a h hv]
        | ok frag =>
            rw [transcribeLoop_step_ok r1 p a h (hhead.trans hv),
              transcribeLoop_step_ok r2 p a h hv]
            exact ih len (start + chunk_duration) frag _ hle2 htail
      · rw [transcribeLoop_stop r1 p a h, transcribeLoop_stop r2 p a h]

/-- Two recognizers that agree on every submitted window give the same
pipeline result: the pipeline consults the recognizer exactly on the
windows of windowTrace. -/
lemma transcribe_congr (r1 r2 : Nat → Nat → Except String String) (len : Nat)
    (hagree : ∀ w ∈ windowTrace len 0, r1 w.1 w.2 = r2 w.1 w.2) :
    transcribe_audio_with_overlap r1 len = transcribe_audio_with_overlap r2 len :=
  transcribeLoop_congr_aux r1 r2 len len 0 "" "" (len_le_mul_chunk len) hagree

/-- find? over `List.range n` returns the least index satisfying the
predicate: the found index satisfies it and every smaller one fails. -/
lemma find?_range_spec (p : Nat → Bool) :
    ∀ n i, (List.range n).find? p = some i → p i = true ∧ ∀ j < i, p j = false := by
  intro n
  induction n with
  | zero => intro i h; simp [List.range_zero, List.find?] at h
  | succ n ih =>
      intro i h
      rw [List.range_succ, List.find?_append] at h
      cases hfind : (List.range n).find? p with
      | some k =>
          rw [hfind] at h
          simp only [Option.or_some] at h
          cases h
          exact ih i hfind
      | none =>
          rw [hfind] at h
          simp only [Option.none_or] at h
          have hall : ∀ j ∈ List.range n, ¬ p j = true := List.find?_eq_none.mp hfind
          simp only [List.find?] at h
          cases hp : p n with
          | false => simp [hp] at h
          | true =>
              simp [hp] at h
              subst h
              refine ⟨hp, ?_⟩
              intro j hj
              have := hall j (List.mem_range.mpr hj)
              simpa using this

lemma accumFold_amended (fs : List String) :
    pyStrip (accumFold "" "" fs) = amendedTranscript fs := by
  cases fs with
  | nil => rfl
  | cons f rest =>
      rw [accumFold_cons, accumFold_eq_concat]
      simp only [ne_eq, not_true_eq_false, if_false, amendedTranscript]
      rfl

/-! ## Claims C1, C3, C4, C5, C9: the speech-to-text component -/

/-- Claim C1, counterexample: on an empty audio buffer the pipeline does
not fail, even when the external transcription capability is unreachable;
it returns the empty transcript. -/
theorem claim_C1_counterexample :
    transcribe_audio_with_overlap (fun _ _ => Except.error "service unreachable") 0
      = Except.ok "" := by
  unfold transcribe_audio_with_overlap
  rw [transcribeLoop_stop _ _ _ (by norm_num)]
  rfl

/-- Claim C1, amended: on an empty audio buffer the pipeline returns the
empty transcript without failing; and it fails with the propagated error
whenever the external transcription capability is unreachable or rejects
a window the pipeline reaches: if the recognizer succeeds on every
window of the trace before some window (s, e) and fails on (s, e), the
pipeline fails with exactly that error (total unreachability is the
instance with no earlier windows). -/
theorem claim_C1_amended :
    ∀ recognize : Nat → Nat → Except String String,
      transcribe_audio_with_overlap recognize 0 = Except.ok "" ∧
      ∀ (msg : String) (len : Nat) (ws1 : List (Nat × Nat)) (s e : Nat)
        (ws2 : List (Nat × Nat)),
        windowTrace len 0 = ws1 ++ (s, e) :: ws2 →
        (∀ w ∈ ws1, ∃ t, recognize w.1 w.2 = Except.ok t) →
        recognize s e = Except.error msg →
        transcribe_audio_with_overlap recognize len = Except.error msg := by
  intro recognize
  constructor
  · unfold transcribe_audio_with_overlap
    rw [transcribeLoop_stop _ _ _ (by norm_num)]
    rfl
  · intro msg len ws1 s e ws2 htrace hok herr
    exact transcribe_reject recognize len msg ws1 s e ws2 htrace hok herr

/-- Claim C1, witness: a two-window buffer whose recognizer accepts the
first window and rejects the second: the pipeline fails with the
rejection error of the second window. -/
theorem claim_C1_witness :
    windowTrace (chunk_duration * 2) 0
      = [((0 : Nat), (176000 : Nat))] ++ ((160000 : Nat), (320000 : Nat)) :: [] ∧
    transcribe_audio_with_overlap
        (fun s _ => if s = 0 then Except.ok "hi" else Except.error "window rejected")
        (chunk_duration * 2)
      = Except.error "window rejected" := by
  have htrace : windowTrace (chunk_duration * 2) 0
      = [((0 : Nat), (176000 : Nat))] ++ ((160000 : Nat), (320000 : Nat)) :: [] := by
    rw [windowTrace_step (by norm_num [chunk_duration]),
      windowTrace_step (by norm_num [chunk_duration]),
      windowTrace_stop (by norm_num [chunk_duration])]
    norm_num [chunk_duration, overlap_duration]
  refine ⟨htrace, ?_⟩
  exact (claim_C1_amended
      (fun s _ => if s = 0 then Except.ok "hi" else Except.error "window rejected")).2
    "window rejected" (chunk_duration * 2) [((0 : Nat), (176000 : Nat))] 160000 320000 []
    htrace
    (by intro w hw
        simp only [List.mem_singleton] at hw
        subst hw
        exact ⟨"hi", rfl⟩)
    rfl

/-- Claim C3: every loop iteration with cursor below the buffer length
submits the window from the cursor to min(cursor + windowBytes +
overlapBytes, length) and advances the cursor by exactly windowBytes,
with windowBytes = 160000 and overlapBytes = 16000; a buffer of exactly
windowBytes yields exactly one window, one of windowBytes * 2 yields
exactly two, the second starting at windowBytes, which is the start of
the overlap region of the first window (its end minus overlapBytes); and
the pipeline consults the recognizer exactly on those windows, so its
result depends only on the recognizer restricted to them. -/
theorem claim_C3 :
    (∀ len start, start < len →
        windowTrace len start =
          (start, min (start + chunk_duration + overlap_duration) len)
            :: windowTrace len (start + chunk_duration)) ∧
    chunk_duration = 160000 ∧ overlap_duration = 16000 ∧
    windowTrace chunk_duration 0 = [(0, chunk_duration)] ∧
    windowTrace (chunk_duration * 2) 0 =
      [(0, chunk_duration + overlap_duration), (chunk_duration, chunk_duration * 2)] ∧
    (chunk_duration + overlap_duration) - overlap_duration = chunk_duration ∧
    (∀ (r1 r2 : Nat → Nat → Except String String) len,
        (∀ w ∈ windowTrace len 0, r1 w.1 w.2 = r2 w.1 w.2) →
        transcribe_audio_with_overlap r1 len = transcribe_audio_with_overlap r2 len) := by
  refine ⟨fun len start h => windowTrace_step h, rfl, rfl, ?_, ?_, by norm_num,
    transcribe_congr⟩
  · rw [windowTrace_step (by norm_num [chunk_duration]),
      windowTrace_stop (by norm_num [chunk_duration])]
    norm_num [chunk_duration, overlap_duration]
  · rw [windowTrace_step (by norm_num [chunk_duration]),
      windowTrace_step (by norm_num [chunk_duration]),
      windowTrace_stop (by norm_num [chunk_duration])]
    norm_num [chunk_duration, overlap_duration]

/-- Claim C3, witness: the step form at a one-byte buffer, and the
recognizer-restriction at a concrete pair of recognizers. -/
theorem claim_C3_witness :
    ((0 : Nat) < 1 ∧
      windowTrace 1 0 =
        (0, min (0 + chunk_duration + overlap_duration) 1)
          :: windowTrace 1 (0 + chunk_duration)) ∧
    transcribe_audio_with_overlap (fun s _ => Except.ok (if s = 0 then "x" else "y")) 1
      = transcribe_audio_with_overlap (fun s _ => Except.ok (if s = 0 then "x" else "y")) 1 :=
  ⟨⟨by decide, claim_C3.1 1 0 (by decide)⟩,
   claim_C3.2.2.2.2.2.2 _ _ 1 (fun _ _ => rfl)⟩

/-- Claim C4, counterexample: with three windows whose raw fragments are
"a", "" and "b", the pipeline returns "aa b", while the formula of the
claim (unconditional pairwise merges) gives "aa  b": the source appends a
fragment directly, skipping the merge, whenever the preceding raw
fragment is empty. -/
theorem claim_C4_counterexample :
    transcribe_audio_with_overlap
        (fun s _ => Except.ok (if s = 0 then "a" else if s = chunk_duration then "" else "b"))
        (chunk_duration * 3)
      = Except.ok "aa b" ∧
    claimTranscript ["a", "", "b"] = "aa  b" ∧
    ("aa b" : String) ≠ "aa  b" := by
  refine ⟨?_, by decide, by decide⟩
  rw [transcribe_frags _
    (fun s => if s = 0 then "a" else if s = chunk_duration then "" else "b")
    (fun _ _ => rfl) (chunk_duration * 3)]
  have hw : windowTrace (chunk_duration * 3) 0 =
      [(0, 176000), (160000, 336000), (320000, 480000)] := by
    rw [windowTrace_step (by norm_num [chunk_duration]),
      windowTrace_step (by norm_num [chunk_duration]),
      windowTrace_step (by norm_num [chunk_duration]),
      windowTrace_stop (by norm_num [chunk_duration])]
    norm_num [chunk_duration, overlap_duration]
  rw [hw]
  have hs : pyStrip (accumFold "" ""
      (List.map (fun w => if w.1 = 0 then "a" else if w.1 = chunk_duration then "" else "b")
        [((0 : Nat), (176000 : Nat)), (160000, 336000), (320000, 480000)]))
      = "aa b" := by decide
  rw [hs]

/-- Claim C4, amended: for every recognizer that succeeds on each window
with raw fragment f(start), the returned transcript is the
whitespace-trimmed value of the first fragment followed by, for each
subsequent window, merge(previous raw fragment, fragment) when the
preceding raw fragment is non-empty and the fragment itself otherwise;
the left argument of each merge is always the raw fragment of the
immediately preceding window, never the running accumulation. -/
theorem claim_C4_amended :
    ∀ (recognize : Nat → Nat → Except String String) (f : Nat → String),
      (∀ s e, recognize s e = Except.ok (f s)) →
      ∀ len, transcribe_audio_with_overlap recognize len
        = Except.ok (amendedTranscript ((windowTrace len 0).map (fun w => f w.1))) := by
  intro recognize f hr len
  rw [transcribe_frags recognize f hr len, accumFold_amended]

/-- Claim C4, witness: the amended statement at a one-byte buffer. -/
theorem claim_C4_witness :
    ((Except.ok "hello" : Except String String) = Except.ok "hello") ∧
    transcribe_audio_with_overlap (fun _ _ => Except.ok "hello") 1
      = Except.ok (amendedTranscript ((windowTrace 1 0).map (fun _ => "hello"))) :=
  ⟨rfl, claim_C4_amended (fun _ _ => Except.ok "hello") (fun _ => "hello")
    (fun _ _ => rfl) 1⟩

/-- Claim C5: when both inputs have words, the boundary words differ, and
the scan finds an overlap index i, the scan result is the longest suffix
of the last word of previous that is a literal prefix of the first word
of current (index i matches and every smaller index, i.e. longer suffix,
fails), and the merge returns the words of previous with the last
replaced by (last word truncated before i) ++ (entire first word of
current), followed by the remaining words of current, space-joined. -/
theorem claim_C5 :
    ∀ (previous current last first : String) (pws rest : List String) (i : Nat),
      pySplit previous = pws ++ [last] →
      pySplit current = first :: rest →
      last ≠ first →
      overlap_index last first = some i →
      merge_with_overlap previous current
          = joinWords (pws ++ [sliceTo last i ++ first] ++ rest) ∧
      pyStartsWith first (sliceFrom last i) = true ∧
      ∀ j < i, pyStartsWith first (sliceFrom last j) = false := by
  intro previous current last first pws rest i hprev hcurr hne hov
  have hmin := find?_range_spec
    (fun j => pyStartsWith first (sliceFrom last j)) (pyLen last) i
    (by simpa [overlap_index] using hov)
  refine ⟨?_, hmin.1, hmin.2⟩
  unfold merge_with_overlap
  rw [hprev, hcurr]
  simp only [List.isEmpty_eq_true, List.append_eq_nil, List.cons_ne_nil, and_false,
    Bool.or_self, pyLast, pyFirst, List.getLastD_concat, List.headD_cons]
  rw [if_neg (by simp), if_neg hne, hov]
  simp [List.dropLast_concat]

/-- Claim C5, witness: merging "say helloworld" with "worldly words";
the longest matching suffix of "helloworld" is "world" (index 5), every
longer suffix (indices 0 to 4) fails, and the result replaces the last
word by "hello" ++ "worldly". -/
theorem claim_C5_witness :
    pySplit "say helloworld" = ["say"] ++ ["helloworld"] ∧
    pySplit "worldly words" = "worldly" :: ["words"] ∧
    overlap_index "helloworld" "worldly" = some 5 ∧
    (merge_with_overlap "say helloworld" "worldly words"
        = joinWords (["say"] ++ [sliceTo "helloworld" 5 ++ "worldly"] ++ ["words"]) ∧
     pyStartsWith "worldly" (sliceFrom "helloworld" 5) = true ∧
     ∀ j < 5, pyStartsWith "worldly" (sliceFrom "helloworld" j) = false) :=
  ⟨by decide, by decide, by decide,
   claim_C5 "say helloworld" "worldly words" "helloworld" "worldly" ["say"] ["words"] 5
     (by decide) (by decide) (by decide) (by decide)⟩

/-- Claim C9: when either input has no words, merge returns the direct
space-joined concatenation without failing; in particular merging ""
with "anything" gives " anything", with a leading space. -/
theorem claim_C9 :
    (∀ previous current, (pySplit previous = [] ∨ pySplit current = []) →
        merge_with_overlap previous current = previous ++ " " ++ current) ∧
    merge_with_overlap "" "anything" = " anything" := by
  constructor
  · intro previous current h
    unfold merge_with_overlap
    rcases h with h | h <;> rw [h] <;> simp
  · decide

/-- Claim C9, witness: the empty previous input. -/
theorem claim_C9_witness :
    (pySplit "" = [] ∨ pySplit "anything" = []) ∧
    merge_with_overlap "" "anything" = "" ++ " " ++ "anything" :=
  ⟨Or.inl (by decide), claim_C9.1 "" "anything" (Or.inl (by decide))⟩

/-! ## Claims C2, C6, C7, C8, C10: the connection handler -/

/-- Claim C2, counterexample: a get_analysis message whose analyzer
raises is an inbound message whose handling raises an error local to
that message, yet the error is not converted into an error reply (only
logged) and the loop does not continue: the following start_interview
message is never processed and connection handling ends. -/
theorem claim_C2_counterexample :
    runLoop
      { get_cv := fun _ => Except.ok "cv",
        get_job_description := fun _ => Except.ok "jd",
        evaluate_code := fun _ _ => Except.ok none,
        analyze_results := fun _ => Except.error "analyzer failure",
        summary_results := fun _ => Except.ok "",
        transcribe := fun _ => Except.ok "",
        pick_question := "Q1" }
      [Inbound.event { type := "get_analysis" }, Inbound.event { type := "start_interview" }]
      InterviewState.init
    = (InterviewState.init, [Effect.log "analyzer failure"],
       LoopExit.crashed "analyzer failure") := by
  decide

/-- Claim C2, amended: a malformed inbound message (ValidationError) is
caught inside the loop, logged and answered with an error message, and
the loop continues with the same state and eventual exit; errors raised
inside the coding and audio handlers are caught there and converted to
coding_error and transcription_error replies, so those events always
return normally from handle_event; but any event whose handling raises
escapes the loop: the error is only logged, no reply is sent, the
remaining messages are never processed and connection handling ends with
the finally cleanup — and the CV-upload, JD-extraction, analysis and
summary handlers do raise whenever their external collaborator does. -/
theorem claim_C2_amended :
    (∀ (or : Oracles) (rest : List Inbound) (s : InterviewState),
        (runLoop or (Inbound.malformed :: rest) s).1 = (runLoop or rest s).1 ∧
        (runLoop or (Inbound.malformed :: rest) s).2.2 = (runLoop or rest s).2.2 ∧
        (runLoop or (Inbound.malformed :: rest) s).2.1
          = Effect.log "validation error" :: Effect.send "error" "validation error"
              :: (runLoop or rest s).2.1) ∧
    (∀ (or : Oracles) (e : EventData) (next : Option Inbound) (s : InterviewState),
        e.type = "coding" → ∃ out, handle_event or e next s = Except.ok out) ∧
    (∀ (or : Oracles) (e : EventData) (next : Option Inbound) (s : InterviewState),
        e.type = "audio" → ∃ out, handle_event or e next s = Except.ok out) ∧
    (∀ (or : Oracles) (e : EventData) (next : Option Inbound) (s : InterviewState)
        (bot : InterviewBot) (m : String),
        e.type = "coding" → s.interview_bot = some bot →
        or.evaluate_code e.ques e.code = Except.error m →
        handle_event or e next s
          = Except.ok (s, [Effect.log m, Effect.send "coding_error" m], false)) ∧
    (∀ (or : Oracles) (e : EventData) (next : Option Inbound) (s : InterviewState)
        (a m : String),
        e.type = "audio" → e.audio_data = some a → a ≠ "" →
        or.transcribe a = Except.error m →
        handle_event or e next s
          = Except.ok (s, [Effect.log m, Effect.send "transcription_error" m], false)) ∧
    (∀ (or : Oracles) (e : EventData) (rest : List Inbound) (s : InterviewState)
        (m : String),
        handle_event or e rest.head? s = Except.error (HandlerErr.exc m) →
        runLoop or (Inbound.event e :: rest) s
          = ((cleanup s).1, Effect.log m :: (cleanup s).2, LoopExit.crashed m)) ∧
    (∀ (or : Oracles) (e : EventData) (j : Inbound) (s : InterviewState) (m : String),
        e.type = "upload_cv" → or.get_cv j = Except.error m →
        handle_event or e (some j) s = Except.error (HandlerErr.exc m)) ∧
    (∀ (or : Oracles) (e : EventData) (j : Inbound) (s : InterviewState) (m : String),
        e.type = "analyze_jd" → or.get_job_description j = Except.error m →
        handle_event or e (some j) s = Except.error (HandlerErr.exc m)) ∧
    (∀ (or : Oracles) (e : EventData) (next : Option Inbound) (s : InterviewState)
        (m : String),
        e.type = "get_analysis" → or.analyze_results s.results = Except.error m →
        handle_event or e next s = Except.error (HandlerErr.exc m)) ∧
    (∀ (or : Oracles) (e : EventData) (next : Option Inbound) (s : InterviewState)
        (m : String),
        e.type = "get_summary_analysis" → or.summary_results s.results = Except.error m →
        handle_event or e next s = Except.error (HandlerErr.exc m)) := by
  refine ⟨fun or rest s => ⟨rfl, rfl, rfl⟩, ?_, ?_, ?_, ?_, ?_, ?_, ?_, ?_, ?_⟩
  · intro or e next s ht
    simp [handle_event, ht]
  · intro or e next s ht
    simp [handle_event, ht]
  · intro or e next s bot m ht hb hev
    simp [handle_event, ht, handle_coding, hb, hev]
  · intro or e next s a m ht haud hne htr
    simp [handle_event, ht, handle_audio_transcription, haud, hne, htr]
  · intro or e rest s m hev
    simp only [runLoop, hev]
  · intro or e j s m ht hcv
    simp [handle_event, ht, hcv]
  · intro or e j s m ht hjd
    simp [handle_event, ht, hjd]
  · intro or e next s m ht han
    simp [handle_event, ht, han]
  · intro or e next s m ht hsum
    simp [handle_event, ht, hsum]

/-- Claim C2, witness: with every external collaborator raising, the
coding and audio events return normally from handle_event with their
error replies, while the CV-upload, JD-extraction, analysis and summary
events raise, and the analysis event crashes the loop with only a log. -/
theorem claim_C2_witness :
    (∃ out, handle_event failingOracles { type := "coding" } none InterviewState.init
        = Except.ok out) ∧
    (∃ out, handle_event failingOracles { type := "audio" } none InterviewState.init
        = Except.ok out) ∧
    handle_event failingOracles { type := "coding" } none
        { InterviewState.init with interview_bot := some (InterviewBot.new "" "") }
      = Except.ok ({ InterviewState.init with interview_bot := some (InterviewBot.new "" "") },
          [Effect.log "boom", Effect.send "coding_error" "boom"], false) ∧
    handle_event failingOracles { type := "audio", audio_data := some "blob" } none
        InterviewState.init
      = Except.ok (InterviewState.init,
          [Effect.log "boom", Effect.send "transcription_error" "boom"], false) ∧
    runLoop failingOracles
        [Inbound.event { type := "get_analysis" }, Inbound.malformed] InterviewState.init
      = ((cleanup InterviewState.init).1,
         Effect.log "boom" :: (cleanup InterviewState.init).2, LoopExit.crashed "boom") ∧
    handle_event failingOracles { type := "upload_cv" } (some Inbound.malformed)
        InterviewState.init = Except.error (HandlerErr.exc "boom") ∧
    handle_event failingOracles { type := "analyze_jd" } (some Inbound.malformed)
        InterviewState.init = Except.error (HandlerErr.exc "boom") ∧
    handle_event failingOracles { type := "get_analysis" } none InterviewState.init
      = Except.error (HandlerErr.exc "boom") ∧
    handle_event failingOracles { type := "get_summary_analysis" } none InterviewState.init
      = Except.error (HandlerErr.exc "boom") :=
  ⟨claim_C2_amended.2.1 failingOracles _ none _ rfl,
   claim_C2_amended.2.2.1 failingOracles _ none _ rfl,
   claim_C2_amended.2.2.2.1 failingOracles _ none _ (InterviewBot.new "" "") "boom"
     rfl rfl rfl,
   claim_C2_amended.2.2.2.2.1 failingOracles _ none _ "blob" "boom" rfl rfl
     (by decide) rfl,
   claim_C2_amended.2.2.2.2.2.1 failingOracles _ [Inbound.malformed] _ "boom" rfl,
   claim_C2_amended.2.2.2.2.2.2.1 failingOracles _ Inbound.malformed _ "boom" rfl rfl,
   claim_C2_amended.2.2.2.2.2.2.2.1 failingOracles _ Inbound.malformed _ "boom" rfl rfl,
   claim_C2_amended.2.2.2.2.2.2.2.2.1 failingOracles _ none _ "boom" rfl rfl,
   claim_C2_amended.2.2.2.2.2.2.2.2.2 failingOracles _ none _ "boom" rfl rfl⟩

/-- Claim C6: when a handle already exists, handle_start_interview is a
no-op (same state, no task launched, nothing sent); after any
handle_start_interview call a handle exists, so a second consecutive call
is always a no-op and exactly one running handle remains. -/
theorem claim_C6 :
    ∀ s : InterviewState,
      (s.interview_bot.isSome = true → handle_start_interview s = (s, [])) ∧
      (handle_start_interview s).1.interview_bot.isSome = true ∧
      handle_start_interview ((handle_start_interview s).1)
        = ((handle_start_interview s).1, []) := by
  intro s
  cases hb : s.interview_bot with
  | none => simp [handle_start_interview, hb]
  | some b => simp [handle_start_interview, hb]

/-- Claim C6, witness: a session that already owns a handle. -/
theorem claim_C6_witness :
    ({ InterviewState.init with interview_bot := some (InterviewBot.new "" "") }
        : InterviewState).interview_bot.isSome = true ∧
    handle_start_interview
        { InterviewState.init with interview_bot := some (InterviewBot.new "" "") }
      = ({ InterviewState.init with interview_bot := some (InterviewBot.new "" "") }, []) :=
  ⟨rfl, (claim_C6 _).1 rfl⟩

/-- Claim C7: an answer submitted while no interview handle exists is
dropped silently: handle_answer raises nothing, changes nothing and sends
nothing, and at the loop level processing such an answer message is
indistinguishable from not receiving it at all. -/
theorem claim_C7 :
    ∀ (code : Option String) (s : InterviewState),
      s.interview_bot = none →
      handle_answer code s = (s, []) ∧
      (∀ (or : Oracles) (rest : List Inbound) (ques audio : Option String),
        runLoop or
            (Inbound.event
              { type := "answer", code := code, ques := ques, audio_data := audio } :: rest) s
          = runLoop or rest s) := by
  intro code s hb
  constructor
  · simp [handle_answer, hb]
  · intro or rest ques audio
    simp [runLoop, handle_event, handle_answer, hb]

/-- Claim C7, witness: an answer message on the fresh session state. -/
theorem claim_C7_witness :
    (InterviewState.init.interview_bot = none) ∧
    handle_answer (some "42") InterviewState.init = (InterviewState.init, []) :=
  ⟨rfl, (claim_C7 (some "42") InterviewState.init rfl).1⟩

/-- Claim C8, amended: when a handle exists and the evaluator call
succeeds, the result is sent to the client and the code-ready signal is
set if and only if it was already set or the outcome is truthy (a
non-None, non-empty mapping) and its verdict (RESULT) field is present
with a truthy value; mere presence of the field does not suffice. -/
theorem claim_C8_amended :
    ∀ (evaluate : Option String → Option String → Except String (Option PyDict))
      (ques code : Option String) (s : InterviewState) (bot : InterviewBot)
      (resp : Option PyDict),
      s.interview_bot = some bot →
      evaluate ques code = Except.ok resp →
      handle_coding evaluate ques code s
        = (if dictTruthy resp && getTruthy resp "RESULT"
           then { s with interview_bot := some ({ bot with coding_event := true }) }
           else s,
           [Effect.send "code_evaluation" ""]) ∧
      codingEventSet (handle_coding evaluate ques code s).1
        = (bot.coding_event || (dictTruthy resp && getTruthy resp "RESULT")) := by
  intro evaluate ques code s bot resp hb hev
  constructor
  · cases hcond : dictTruthy resp && getTruthy resp "RESULT" <;>
      simp [handle_coding, hb, hev, hcond]
  · cases hcond : dictTruthy resp && getTruthy resp "RESULT" <;>
      simp [handle_coding, hb, hev, hcond, codingEventSet]

/-- Claim C8, counterexample: an evaluator outcome that has the verdict
field with a falsy value: the field is present, the handler runs with a
handle in place and sends the evaluation, yet the code-ready signal is
not set, refuting the stated if-and-only-if. -/
theorem claim_C8_counterexample :
    hasVerdictField (some [("RESULT", false)]) = true ∧
    handle_coding (fun _ _ => Except.ok (some [("RESULT", false)])) (some "q") (some "c")
        { InterviewState.init with interview_bot := some (InterviewBot.new "" "") }
      = ({ InterviewState.init with interview_bot := some (InterviewBot.new "" "") },
         [Effect.send "code_evaluation" ""]) ∧
    codingEventSet
        (handle_coding (fun _ _ => Except.ok (some [("RESULT", false)])) (some "q")
          (some "c")
          { InterviewState.init with interview_bot := some (InterviewBot.new "" "") }).1
      = false := by
  refine ⟨rfl, by decide, by decide⟩

/-- Claim C8, witness: the amended statement at a truthy verdict value:
the signal becomes set. -/
theorem claim_C8_witness :
    codingEventSet
        (handle_coding (fun _ _ => Except.ok (some [("RESULT", true)])) none none
          { InterviewState.init with interview_bot := some (InterviewBot.new "" "") }).1
      = ((InterviewBot.new "" "").coding_event
          || (dictTruthy (some [("RESULT", true)])
              && getTruthy (some [("RESULT", true)]) "RESULT")) :=
  (claim_C8_amended (fun _ _ => Except.ok (some [("RESULT", true)])) none none
    _ (InterviewBot.new "" "") (some [("RESULT", true)]) rfl rfl).2

/-- Claim C10: for an audio message with a truthy payload whose pipeline
returns an empty transcript, the session state (in particular the
pending-answer slot and the answer-ready signal) is left unchanged while
the transcription_complete reply is still sent; and whenever the handler
changes the state at all, the transcript was non-empty and a handle
existed. -/
theorem claim_C10 :
    ∀ (tr : String → Except String String) (a : String) (s : InterviewState) (t : String),
      tr a = Except.ok t →
      a ≠ "" →
      ((t = "" → handle_audio_transcription tr (some a) s
          = (s, [Effect.send "transcription_complete" ""])) ∧
       ((handle_audio_transcription tr (some a) s).1 ≠ s →
          t ≠ "" ∧ s.interview_bot.isSome = true) ∧
       (answerEventSet (handle_audio_transcription tr (some a) s).1 = true →
          answerEventSet s = true ∨ (t ≠ "" ∧ s.interview_bot.isSome = true))) := by
  intro tr a s t htr ha
  refine ⟨?_, ?_, ?_⟩
  · intro ht
    subst ht
    simp [handle_audio_transcription, ha, htr]
  · intro hch
    by_cases ht : t = ""
    · exact absurd (by subst ht; simp [handle_audio_transcription, ha, htr]) hch
    · refine ⟨ht, ?_⟩
      cases hb : s.interview_bot with
      | none =>
          exact absurd (by simp [handle_audio_transcription, ha, htr, ht, hb]) hch
      | some bot => rfl
  · intro hset
    by_cases ht : t = ""
    · subst ht
      rw [show (handle_audio_transcription tr (some a) s).1 = s by
        simp [handle_audio_transcription, ha, htr]] at hset
      exact Or.inl hset
    · cases hb : s.interview_bot with
      | none =>
          rw [show (handle_audio_transcription tr (some a) s).1 = s by
            simp [handle_audio_transcription, ha, htr, ht, hb]] at hset
          exact Or.inl hset
      | some bot => exact Or.inr ⟨ht, by simp [hb]⟩

/-- Claim C10, witness: an empty transcript on a session owning a handle:
state unchanged, transcription_complete still sent. -/
theorem claim_C10_witness :
    ((Except.ok "" : Except String String) = Except.ok "") ∧
    (("blob" : String) ≠ "") ∧
    handle_audio_transcription (fun _ => Except.ok "") (some "blob")
        { InterviewState.init with interview_bot := some (InterviewBot.new "" "") }
      = ({ InterviewState.init with interview_bot := some (InterviewBot.new "" "") },
         [Effect.send "transcription_complete" ""]) :=
  ⟨rfl, by decide,
   (claim_C10 (fun _ => Except.ok "") "blob"
     { InterviewState.init with interview_bot := some (InterviewBot.new "" "") } ""
     rfl (by decide)).1 rfl⟩

end Mylamp
